import Mathlib

/-!
Verification development for the Guild Defense Reconciliation Engine of this
repository.  The persisted data model is embedded from the SQL migrations
under src/migrations (V2__automod_changes.sql, V4__mod_lockdown.sql,
V9__mod_gatekeeper.sql).  The behavioral components (GatekeeperStateMachine,
LockdownManager, RaidDetector, Reconciler) have no implementation under src/
— only their schema is there — so their operations are modelled from the
specification, as marked on each definition.
-/

/-- The gatekeeper_role_state enum from src/migrations/V9__mod_gatekeeper.sql:
CREATE TYPE gatekeeper_role_state AS ENUM ('added', 'pending_add', 'pending_remove'). -/
inductive GatekeeperRoleState where
  | added
  | pending_add
  | pending_remove
deriving DecidableEq, Repr

/-- Key of a guild_gatekeeper_members row: PRIMARY KEY (guild_id, user_id)
in src/migrations/V9__mod_gatekeeper.sql. -/
structure MemberKey where
  guild_id : Nat
  user_id : Nat
deriving DecidableEq, Repr

/-- The guild_gatekeeper_members table, embedded as a list of rows
(key paired with its gatekeeper_role_state column). -/
def MemberTable : Type := List (MemberKey × GatekeeperRoleState)

/-- Lookup of the state column for a (guild_id, user_id) key. -/
def lookupMember (t : MemberTable) (k : MemberKey) : Option GatekeeperRoleState :=
  (List.find? (fun p => p.1 = k) t).map Prod.snd

/-- Number of rows stored for a (guild_id, user_id) key; the schema PRIMARY KEY
makes this at most one in any table reachable through SQL. -/
def rowCount (t : MemberTable) (k : MemberKey) : Nat :=
  (List.filter (fun p => decide (p.1 = k)) t).length

/-- Policy error of the quarantine operation. -/
inductive QuarantineError where
  | SessionInactive
deriving DecidableEq, Repr

/-- Modelled from the spec: the GatekeeperStateMachine quarantine operation
(its implementation is not under src/; only the schema V9__mod_gatekeeper.sql
is).  Spec: inserts pending_add if no row exists for that member; returns an
error if no active session exists for the guild; a second call while
pending_add or added is a no-op. -/
def quarantine (sessionActive : Bool) (t : MemberTable) (k : MemberKey) :
    Except QuarantineError MemberTable :=
  if sessionActive then
    match lookupMember t k with
    | some _ => Except.ok t
    | none => Except.ok ((k, GatekeeperRoleState.pending_add) :: t)
  else
    Except.error QuarantineError.SessionInactive

/-- A sequence of n quarantine calls for the same key; a policy error leaves
the table untouched, matching the spec where errors are reported to the
caller and never mutate persisted state. -/
def quarantineMany (sessionActive : Bool) (t : MemberTable) (k : MemberKey) :
    Nat → MemberTable
  | 0 => t
  | n + 1 =>
    match quarantine sessionActive t k with
    | Except.ok t2 => quarantineMany sessionActive t2 k n
    | Except.error _ => quarantineMany sessionActive t k n

/-- Policy error of the verify operation. -/
inductive VerifyError where
  | NotQuarantined
deriving DecidableEq, Repr

/-- Modelled from the spec: the GatekeeperStateMachine verify operation on a
single member row (implementation not under src/).  Spec: only valid from
added; any other state fails with NotQuarantined; on success the member moves
to pending_remove. -/
def verify (s : Option GatekeeperRoleState) :
    Except VerifyError (Option GatekeeperRoleState) :=
  match s with
  | some GatekeeperRoleState.added => Except.ok (some GatekeeperRoleState.pending_remove)
  | _ => Except.error VerifyError.NotQuarantined

/-- The operations that may touch a single member row, modelled from the spec
(implementation not under src/): quarantine entry, the Reconciler confirmed
grant and confirmed revoke callbacks, member verification and session
deactivation. -/
inductive GatekeeperOp where
  | quarantineOp
  | confirmGrant
  | verifyOp
  | deactivateOp
  | confirmRevoke
deriving DecidableEq, Repr

/-- Modelled from the spec: effect of each operation on one member row
(none = no row).  Compare-and-swap semantics: a transition is applied only if
the row is still in the expected prior state, otherwise the operation is a
benign no-op. -/
def applyOp (o : GatekeeperOp) (s : Option GatekeeperRoleState) :
    Option GatekeeperRoleState :=
  match o, s with
  | GatekeeperOp.quarantineOp, none => some GatekeeperRoleState.pending_add
  | GatekeeperOp.quarantineOp, some s0 => some s0
  | GatekeeperOp.confirmGrant, some GatekeeperRoleState.pending_add =>
      some GatekeeperRoleState.added
  | GatekeeperOp.confirmGrant, s0 => s0
  | GatekeeperOp.verifyOp, some GatekeeperRoleState.added =>
      some GatekeeperRoleState.pending_remove
  | GatekeeperOp.verifyOp, s0 => s0
  | GatekeeperOp.deactivateOp, some GatekeeperRoleState.added =>
      some GatekeeperRoleState.pending_remove
  | GatekeeperOp.deactivateOp, s0 => s0
  | GatekeeperOp.confirmRevoke, some GatekeeperRoleState.pending_remove => none
  | GatekeeperOp.confirmRevoke, s0 => s0

/-- The transitions the spec allows on a member row: creation in pending_add,
pending_add to added on confirmed grant, added to pending_remove on verify or
deactivation, pending_remove to deletion on confirmed revoke. -/
def allowedTransition (s t : Option GatekeeperRoleState) : Prop :=
  (s = none ∧ t = some GatekeeperRoleState.pending_add) ∨
  (s = some GatekeeperRoleState.pending_add ∧ t = some GatekeeperRoleState.added) ∨
  (s = some GatekeeperRoleState.added ∧ t = some GatekeeperRoleState.pending_remove) ∨
  (s = some GatekeeperRoleState.pending_remove ∧ t = none)

/-- C2: every operation either leaves the row unchanged or performs one of the
transitions of the spec state machine; creation is only ever into pending_add. -/
theorem gatekeeper_member_transitions_c2 :
    ∀ (o : GatekeeperOp) (s : Option GatekeeperRoleState),
      applyOp o s = s ∨ allowedTransition s (applyOp o s) := by
  intro o s
  cases o <;> cases s <;>
    first
      | exact Or.inl rfl
      | (rename_i s0; cases s0 <;>
          first
            | exact Or.inl rfl
            | (right; simp [applyOp, allowedTransition]))
      | (right; simp [applyOp, allowedTransition])

/-- C1: while the member's row is pending_add or added (and is the unique row
for its key, as the schema PRIMARY KEY guarantees), any sequence of quarantine
calls is a sequence of no-ops: the table is left exactly as it was, so exactly
one row for the pair persists, in its original state. -/
theorem quarantine_idempotent_c1 (active : Bool) (t : MemberTable)
    (k : MemberKey) (s : GatekeeperRoleState) (n : Nat)
    (hs : lookupMember t k = some s)
    (hpa : s = GatekeeperRoleState.pending_add ∨ s = GatekeeperRoleState.added)
    (hone : rowCount t k = 1) :
    quarantineMany active t k n = t ∧
      rowCount (quarantineMany active t k n) k = 1 ∧
      lookupMember (quarantineMany active t k n) k = some s := by
  have hfix : quarantineMany active t k n = t := by
    induction n with
    | zero => rfl
    | succ m ih =>
      cases active with
      | false =>
        simpa [quarantineMany, quarantine] using ih
      | true =>
        simpa [quarantineMany, quarantine, hs] using ih
  exact ⟨hfix, by rw [hfix]; exact hone, by rw [hfix]; exact hs⟩

/-- Witness for C1 at a concrete table: one row in pending_add, three calls. -/
theorem quarantine_idempotent_c1_witness :
    quarantineMany true [(⟨1, 2⟩, GatekeeperRoleState.pending_add)] ⟨1, 2⟩ 3 =
        [(⟨1, 2⟩, GatekeeperRoleState.pending_add)] ∧
      rowCount (quarantineMany true [(⟨1, 2⟩, GatekeeperRoleState.pending_add)] ⟨1, 2⟩ 3) ⟨1, 2⟩ = 1 ∧
      lookupMember (quarantineMany true [(⟨1, 2⟩, GatekeeperRoleState.pending_add)] ⟨1, 2⟩ 3) ⟨1, 2⟩ =
        some GatekeeperRoleState.pending_add :=
  quarantine_idempotent_c1 true [(⟨1, 2⟩, GatekeeperRoleState.pending_add)] ⟨1, 2⟩
    GatekeeperRoleState.pending_add 3 (by decide) (Or.inl rfl) (by decide)

/-- C7: verify succeeds exactly on state added (yielding pending_remove); in
every other situation it returns NotQuarantined, and, returning an error, it
leaves persisted state unchanged. -/
theorem verify_iff_added_c7 :
    ∀ s : Option GatekeeperRoleState,
      (verify s = Except.ok (some GatekeeperRoleState.pending_remove) ↔
        s = some GatekeeperRoleState.added) ∧
      (s = some GatekeeperRoleState.added ∨
        verify s = Except.error VerifyError.NotQuarantined) := by
  intro s
  cases s with
  | none => exact ⟨by simp [verify], Or.inr rfl⟩
  | some s0 => cases s0 <;> simp [verify]

/-- The guild_gatekeeper table from src/migrations/V9__mod_gatekeeper.sql.
Nullable columns are embedded as Option; bypass_action is TEXT NOT NULL
DEFAULT 'ban', embedded as an Option String value that insertion always
fills (so non-nullness is a provable property of reachable rows).
The schema CHECK demands that started_at is null or channel_id, role_id and
message_id are all non-null. -/
structure GatekeeperSession where
  id : Nat
  started_at : Option Nat
  channel_id : Option Nat
  role_id : Option Nat
  message_id : Option Nat
  bypass_action : Option String
  rate : Option String
deriving DecidableEq, Repr

/-- Insertion of a fresh guild_gatekeeper row, per the schema defaults of
V9__mod_gatekeeper.sql: every column other than the key defaults to null
except bypass_action, which defaults to the string ban when the insert does
not choose one. -/
def insertGatekeeperSession (id : Nat) (bypass : Option String) : GatekeeperSession :=
  { id := id, started_at := none, channel_id := none, role_id := none,
    message_id := none, bypass_action := some (bypass.getD "ban"), rate := none }

/-- Modelled from the spec: the GatekeeperStateMachine activate operation
(implementation not under src/) configures the session fully — quarantine
channel, role and verification message together with the activation
timestamp, bypass action and rate policy are all written at once. -/
def activatedSession (ts c r m : Nat) (b : String) (rt : Option String)
    (s : GatekeeperSession) : GatekeeperSession :=
  { s with started_at := some ts, channel_id := some c, role_id := some r,
           message_id := some m, bypass_action := some b, rate := rt }

/-- Modelled from the spec: deactivate clears the activation timestamp and
nothing else; the row is dropped only once the Reconciler drains members. -/
def deactivateSession (s : GatekeeperSession) : GatekeeperSession :=
  { s with started_at := none }

/-- Modelled from the spec: the session rows reachable through the
GatekeeperStateMachine operations — creation with schema defaults, activation
(only when not already active), deactivation, and deletion of the row. -/
inductive SessionReachable : Option GatekeeperSession → Prop where
  | init : SessionReachable none
  | create (id : Nat) (bypass : Option String) :
      SessionReachable none →
      SessionReachable (some (insertGatekeeperSession id bypass))
  | act (ts c r m : Nat) (b : String) (rt : Option String)
      (s : GatekeeperSession) :
      SessionReachable (some s) → s.started_at = none →
      SessionReachable (some (activatedSession ts c r m b rt s))
  | deact (s : GatekeeperSession) :
      SessionReachable (some s) → SessionReachable (some (deactivateSession s))
  | drop (s : GatekeeperSession) :
      SessionReachable (some s) → SessionReachable none

/-- Invariant shared by the session claims: every reachable row is fully
configured or fully unset, and its bypass action is never null. -/
theorem sessionReachable_fields (os : Option GatekeeperSession)
    (h : SessionReachable os) :
    ∀ s : GatekeeperSession, os = some s →
      ((s.channel_id.isSome = true ∧ s.role_id.isSome = true ∧
          s.message_id.isSome = true) ∨
        (s.channel_id = none ∧ s.role_id = none ∧ s.message_id = none)) ∧
      s.bypass_action.isSome = true := by
  induction h with
  | init => intro s hs; cases hs
  | create id bypass h ih =>
      intro s hs
      injection hs with hs
      subst hs
      exact ⟨Or.inr ⟨rfl, rfl, rfl⟩, rfl⟩
  | act ts c r m b rt s0 h hst ih =>
      intro s hs
      injection hs with hs
      subst hs
      exact ⟨Or.inl ⟨rfl, rfl, rfl⟩, rfl⟩
  | deact s0 h ih =>
      intro s hs
      injection hs with hs
      subst hs
      simpa [deactivateSession] using ih s0 rfl
  | drop s0 h ih => intro s hs; cases hs

/-- C3: every reachable guild gatekeeper session row has its quarantine
channel, role and verification message all set or all unset — a partially
configured session is never observable, active or not. -/
theorem session_all_or_nothing_c3 (os : Option GatekeeperSession)
    (sess : GatekeeperSession) (h : SessionReachable os)
    (hos : os = some sess) :
    (sess.channel_id.isSome = true ∧ sess.role_id.isSome = true ∧
        sess.message_id.isSome = true) ∨
      (sess.channel_id = none ∧ sess.role_id = none ∧ sess.message_id = none) :=
  (sessionReachable_fields os h sess hos).1

/-- Witness for C3 at a concrete reachable session: created then activated. -/
theorem session_all_or_nothing_c3_witness :
    ((activatedSession 100 1 2 3 "ban" none (insertGatekeeperSession 5 none)).channel_id.isSome = true ∧
        (activatedSession 100 1 2 3 "ban" none (insertGatekeeperSession 5 none)).role_id.isSome = true ∧
        (activatedSession 100 1 2 3 "ban" none (insertGatekeeperSession 5 none)).message_id.isSome = true) ∨
      ((activatedSession 100 1 2 3 "ban" none (insertGatekeeperSession 5 none)).channel_id = none ∧
        (activatedSession 100 1 2 3 "ban" none (insertGatekeeperSession 5 none)).role_id = none ∧
        (activatedSession 100 1 2 3 "ban" none (insertGatekeeperSession 5 none)).message_id = none) :=
  session_all_or_nothing_c3
    (some (activatedSession 100 1 2 3 "ban" none (insertGatekeeperSession 5 none)))
    (activatedSession 100 1 2 3 "ban" none (insertGatekeeperSession 5 none))
    (SessionReachable.act 100 1 2 3 "ban" none (insertGatekeeperSession 5 none)
      (SessionReachable.create 5 none SessionReachable.init) rfl)
    rfl

/-- C9: a session created without an explicitly chosen bypass action gets the
bypass action ban, an explicit choice is kept verbatim, and the bypass action
column of every reachable session row is non-null. -/
theorem gatekeeper_bypass_default_c9 (id : Nat) (b : String)
    (os : Option GatekeeperSession) (s : GatekeeperSession)
    (hr : SessionReachable os) (hos : os = some s) :
    (insertGatekeeperSession id none).bypass_action = some "ban" ∧
      (insertGatekeeperSession id (some b)).bypass_action = some b ∧
      s.bypass_action.isSome = true :=
  ⟨rfl, rfl, (sessionReachable_fields os hr s hos).2⟩

/-- Witness for C9 at a concrete freshly inserted session. -/
theorem gatekeeper_bypass_default_c9_witness :
    (insertGatekeeperSession 7 none).bypass_action = some "ban" ∧
      (insertGatekeeperSession 7 (some "kick")).bypass_action = some "kick" ∧
      (insertGatekeeperSession 9 none).bypass_action.isSome = true :=
  gatekeeper_bypass_default_c9 7 "kick" (some (insertGatekeeperSession 9 none))
    (insertGatekeeperSession 9 none)
    (SessionReachable.create 9 none SessionReachable.init) rfl

/-- An allow/deny permission overwrite bitmask pair, per the PermissionLedger
of the spec and the allow/deny BIGINT columns of
src/migrations/V4__mod_lockdown.sql. -/
structure Overwrite where
  allow : Nat
  deny : Nat
deriving DecidableEq, Repr

/-- A guild_lockdowns row from src/migrations/V4__mod_lockdown.sql:
guild_id, channel_id, allow, deny with PRIMARY KEY (guild_id, channel_id);
per the spec the stored bitmasks are the original overwrite, preserved so it
can be exactly reverted. -/
structure LockdownEntry where
  guild_id : Nat
  channel_id : Nat
  allow : Nat
  deny : Nat
deriving DecidableEq, Repr

/-- State the LockdownManager acts on: the everyone-role overwrite of each
(guild, channel) pair as confirmed by the Reconciler, plus the persisted
guild_lockdowns rows. -/
structure LockState where
  overwrites : Nat × Nat → Overwrite
  entries : List LockdownEntry

/-- The send-messages permission bit. -/
def sendMessagesBit : Nat := 2 ^ 11

/-- Modelled from the spec: the deny-send-messages overwrite computed from a
channel's current everyone overwrite — send is removed from allow and set in
deny. -/
def lockedOverwrite (o : Overwrite) : Overwrite :=
  { allow := if Nat.testBit o.allow 11 then o.allow - sendMessagesBit else o.allow,
    deny := o.deny ||| sendMessagesBit }

/-- Find the guild_lockdowns row for a (guild, channel) key. -/
def findEntry (es : List LockdownEntry) (g c : Nat) : Option LockdownEntry :=
  List.find? (fun e => decide (e.guild_id = g ∧ e.channel_id = c)) es

/-- Policy error of the lock operation. -/
inductive LockError where
  | AlreadyLocked
deriving DecidableEq, Repr

/-- Policy error of the unlock operation. -/
inductive UnlockError where
  | NotLocked
deriving DecidableEq, Repr

/-- Modelled from the spec: lock(guild, channel) with the Reconciler
confirmation folded in (the LockdownManager implementation is not under
src/; only the schema V4__mod_lockdown.sql is).  It fails with AlreadyLocked
when an entry exists, otherwise records a LockdownEntry preserving the
original overwrite and applies the deny-send-messages overwrite. -/
def lock (st : LockState) (g c : Nat) : Except LockError LockState :=
  match findEntry st.entries g c with
  | some _ => Except.error LockError.AlreadyLocked
  | none =>
    let o := st.overwrites (g, c)
    Except.ok
      { overwrites := fun k => if k = (g, c) then lockedOverwrite o else st.overwrites k,
        entries := { guild_id := g, channel_id := c, allow := o.allow, deny := o.deny } :: st.entries }

/-- Modelled from the spec: unlock(guild, channel) with the Reconciler
confirmation folded in — restores the preserved original overwrite and then
deletes the LockdownEntry; fails with NotLocked when no entry exists. -/
def unlock (st : LockState) (g c : Nat) : Except UnlockError LockState :=
  match findEntry st.entries g c with
  | none => Except.error UnlockError.NotLocked
  | some e =>
    Except.ok
      { overwrites := fun k =>
          if k = (g, c) then { allow := e.allow, deny := e.deny } else st.overwrites k,
        entries := List.filter
          (fun e2 => !(decide (e2.guild_id = g ∧ e2.channel_id = c))) st.entries }

/-- C4: lock from an unlocked state followed by unlock, both confirmed,
restores the everyone-role overwrite of the channel to exactly the allow and
deny bitmasks it had before the lock. -/
theorem lock_unlock_roundtrip_c4 (st st1 st2 : LockState) (g c : Nat)
    (h1 : lock st g c = Except.ok st1)
    (h2 : unlock st1 g c = Except.ok st2) :
    st2.overwrites (g, c) = st.overwrites (g, c) := by
  unfold lock at h1
  split at h1
  · cases h1
  · injection h1 with h1
    subst h1
    simp [unlock, findEntry, List.find?] at h2
    subst h2
    simp

/-- Demonstration lock state: no channel locked, a fixed everyone overwrite. -/
def demoLockState : LockState :=
  { overwrites := fun _ => { allow := 3, deny := 5 }, entries := [] }

/-- The state after locking channel 2 of guild 1 in demoLockState. -/
def demoLocked : LockState :=
  match lock demoLockState 1 2 with
  | Except.ok s => s
  | Except.error _ => demoLockState

/-- The state after unlocking channel 2 of guild 1 again. -/
def demoUnlocked : LockState :=
  match unlock demoLocked 1 2 with
  | Except.ok s => s
  | Except.error _ => demoLocked

/-- Witness for C4 on the demonstration state. -/
theorem lock_unlock_roundtrip_c4_witness :
    demoUnlocked.overwrites (1, 2) = demoLockState.overwrites (1, 2) :=
  lock_unlock_roundtrip_c4 demoLockState demoLocked demoUnlocked 1 2 rfl rfl

/-- C5: locking a channel that already has a LockdownEntry returns
AlreadyLocked (so no state change and no enqueued mutation, state only ever
changing through an ok result), and the existing entry with its preserved
original bitmasks is still there. -/
theorem lock_already_locked_c5 (st st1 : LockState) (g c : Nat)
    (h : lock st g c = Except.ok st1) :
    lock st1 g c = Except.error LockError.AlreadyLocked ∧
      findEntry st1.entries g c =
        some { guild_id := g, channel_id := c,
               allow := (st.overwrites (g, c)).allow,
               deny := (st.overwrites (g, c)).deny } := by
  unfold lock at h
  split at h
  · cases h
  · injection h with h
    subst h
    have hfind : findEntry
        ({ guild_id := g, channel_id := c,
           allow := (st.overwrites (g, c)).allow,
           deny := (st.overwrites (g, c)).deny } :: st.entries) g c =
        some { guild_id := g, channel_id := c,
               allow := (st.overwrites (g, c)).allow,
               deny := (st.overwrites (g, c)).deny } := by
      simp [findEntry, List.find?]
    refine ⟨?_, hfind⟩
    unfold lock
    rw [hfind]

/-- Witness for C5 on the demonstration state. -/
theorem lock_already_locked_c5_witness :
    lock demoLocked 1 2 = Except.error LockError.AlreadyLocked ∧
      findEntry demoLocked.entries 1 2 =
        some { guild_id := 1, channel_id := 2,
               allow := (demoLockState.overwrites (1, 2)).allow,
               deny := (demoLockState.overwrites (1, 2)).deny } :=
  lock_already_locked_c5 demoLockState demoLocked 1 2 rfl

/-- Raid-detection policy: window length in seconds and join-count threshold. -/
structure RaidConfig where
  window : Nat
  threshold : Nat
deriving DecidableEq, Repr

/-- Per-guild detector state: recent join timestamps (newest first), the
gatekeeper bit of the AutomodFlagSet, and whether a session is active. -/
structure RaidState where
  joins : List Nat
  gatekeeperEnabled : Bool
  sessionActive : Bool
deriving DecidableEq, Repr

/-- An activation signal describing the trigger. -/
structure Activation where
  triggeredAt : Nat
  count : Nat
deriving DecidableEq, Repr

/-- Modelled from the spec: eviction of join timestamps older than the window
on every observation; an entry aged more than the window is dropped. -/
def evictOld (window now : Nat) (joins : List Nat) : List Nat :=
  List.filter (fun t => decide (now - t ≤ window)) joins

/-- Modelled from the spec: the RaidDetector observe_join operation
(implementation not under src/).  Records the join, evicts stale entries, and
returns an Activation exactly when the in-window count reaches the threshold,
the gatekeeper flag is enabled and no session is already active. -/
def observeJoin (cfg : RaidConfig) (st : RaidState) (now : Nat) :
    Option Activation × RaidState :=
  if cfg.threshold ≤ (now :: evictOld cfg.window now st.joins).length ∧
      st.gatekeeperEnabled = true ∧ st.sessionActive = false then
    (some { triggeredAt := now,
            count := (now :: evictOld cfg.window now st.joins).length },
     { st with joins := now :: evictOld cfg.window now st.joins })
  else
    (none, { st with joins := now :: evictOld cfg.window now st.joins })

/-- A run of observe_join over a list of join timestamps, returning the
activation outcome of each call. -/
def observeAll (cfg : RaidConfig) : RaidState → List Nat → List (Option Activation)
  | _, [] => []
  | st, t :: ts =>
    (observeJoin cfg st t).1 :: observeAll cfg (observeJoin cfg st t).2 ts

/-- The configuration of the C6 examples: window 10 seconds, threshold 5. -/
def raidCfg : RaidConfig := { window := 10, threshold := 5 }

/-- Fresh detector state with the gatekeeper flag on and no active session. -/
def freshRaidState : RaidState :=
  { joins := [], gatekeeperEnabled := true, sessionActive := false }

/-- C6: with window 10 and threshold 5, joins at 0,1,2,3,4 activate at the
call with timestamp 4; joins at 0,1,2,3,11 never activate; joins at
8,9,10,11 plus the join at 11 activate; and in general observe_join returns
an Activation exactly when the in-window join count reaches the threshold,
the gatekeeper flag is enabled and no session is already active. -/
theorem raid_detection_c6 :
    observeAll raidCfg freshRaidState [0, 1, 2, 3, 4] =
        [none, none, none, none, some { triggeredAt := 4, count := 5 }] ∧
      observeAll raidCfg freshRaidState [0, 1, 2, 3, 11] =
        [none, none, none, none, none] ∧
      observeAll raidCfg freshRaidState [8, 9, 10, 11, 11] =
        [none, none, none, none, some { triggeredAt := 11, count := 5 }] ∧
      ∀ (cfg : RaidConfig) (st : RaidState) (now : Nat),
        (observeJoin cfg st now).1.isSome = true ↔
          (cfg.threshold ≤ (now :: evictOld cfg.window now st.joins).length ∧
            st.gatekeeperEnabled = true ∧ st.sessionActive = false) := by
  refine ⟨by decide, by decide, by decide, ?_⟩
  intro cfg st now
  unfold observeJoin
  split
  next h => simpa using h
  next h => simpa using h

/-- Modelled from the spec: one Reconciler execution, one entry per second.
Each second the pending backlog (already persisted rows plus the rows other
components enqueue that second) is drained by at most the shared per-second
mutation budget of ExternalDirectory calls; the rest stays pending for later
seconds.  Items are identifiers; arrivals gives the rows enqueued during each
second. -/
def reconcilerSchedule (budget : Nat) (arrivals : Nat → List Nat) :
    Nat → Nat → List Nat → List (List Nat)
  | _, 0, _ => []
  | t, n + 1, pending =>
    List.take budget (pending ++ arrivals t) ::
      reconcilerSchedule budget arrivals (t + 1) n
        (List.drop budget (pending ++ arrivals t))

/-- C8: in every execution of the Reconciler loop, the ExternalDirectory
calls issued within any one-second window never exceed the shared rate
budget, whatever the backlog and however much new work arrives. -/
theorem reconciler_rate_budget_c8 (budget n t0 : Nat)
    (arrivals : Nat → List Nat) (pending issued : List Nat)
    (hmem : issued ∈ reconcilerSchedule budget arrivals t0 n pending) :
    issued.length ≤ budget := by
  induction n generalizing t0 pending with
  | zero => simp [reconcilerSchedule] at hmem
  | succ m ih =>
    rw [reconcilerSchedule] at hmem
    rcases List.mem_cons.mp hmem with h | h
    · subst h
      simp [min_le_left]
    · exact ih _ _ h

/-- Witness for C8: budget 2, five pending rows, three seconds. -/
theorem reconciler_rate_budget_c8_witness :
    ([1, 2] : List Nat).length ≤ 2 :=
  reconciler_rate_budget_c8 2 3 0 (fun _ => []) [1, 2, 3, 4, 5] [1, 2]
    (by decide)

/-- The first UPDATE of src/migrations/V2__automod_changes.sql:
SET automod_flags = 3 WHERE automod_flags = 2. -/
def updateTwoToThree (v : Option Int) : Option Int :=
  if v = some 2 then some 3 else v

/-- The second UPDATE of src/migrations/V2__automod_changes.sql:
SET automod_flags = 0 WHERE automod_flags IS NULL. -/
def updateNullToZero (v : Option Int) : Option Int :=
  if v = none then some 0 else v

/-- Effect of the V2 migration on the automod_flags column value of one
pre-existing guild_mod_config row (the column was raid_mode before the
rename), before the trailing SET NOT NULL. -/
def migrateAutomodFlags (v : Option Int) : Option Int :=
  updateNullToZero (updateTwoToThree v)

/-- C10: the V2 migration maps a prior raid_mode of 2 to automod_flags 3,
a prior NULL to 0, leaves every other prior value unchanged, and leaves the
column non-null on every row (so the trailing SET NOT NULL succeeds). -/
theorem automod_flags_migration_c10 :
    ∀ (v : Int) (x : Option Int),
      migrateAutomodFlags (some 2) = some 3 ∧
        migrateAutomodFlags none = some 0 ∧
        (v = 2 ∨ migrateAutomodFlags (some v) = some v) ∧
        (migrateAutomodFlags x).isSome = true := by
  intro v x
  refine ⟨rfl, rfl, ?_, ?_⟩
  · by_cases hv : v = 2
    · exact Or.inl hv
    · right
      simp [migrateAutomodFlags, updateTwoToThree, updateNullToZero, hv]
  · cases x with
    | none => rfl
    | some y =>
      by_cases hy : y = 2
      · subst hy; rfl
      · simp [migrateAutomodFlags, updateTwoToThree, updateNullToZero, hy]
